import Mathlib

/-!
Verification of the Mattermost channel action adapter
(`src/extensions/mattermost/src/actions.ts`).

The adapter's data model and operations are embedded shallowly:
JavaScript parameter bags become association lists of `JValue`s,
the remote Mattermost API becomes an explicit response environment
plus a trace of remote calls, and thrown errors become `Except`
values tagged with the error kind the specification assigns to each
throw site.  Helpers that live outside the sources (the plugin SDK's
parameter readers and action gate, the accounts module, the client
module's base-URL normalization) are modelled from the spec and say
so in their doc comments.
-/

/-- A JSON-ish runtime value, the type of entries in a parameter bag
(`Record<string, unknown>` in the adapter). -/
inductive JValue where
  | str (s : String)
  | num (n : Int)
  | bool (b : Bool)
  | null
deriving DecidableEq

/-- A parameter bag: property lookup on a JavaScript object, embedded as an
association list with first-match lookup. -/
def Params : Type := List (String × JValue)

/-- Property access `params[key]`. -/
def lookupParam (params : Params) (key : String) : Option JValue :=
  List.lookup key params

/-- JavaScript `String.prototype.trim`, written structurally over the
character list so that it evaluates by kernel reduction. -/
def wsTrim (s : String) : String :=
  String.mk (((s.data.dropWhile Char.isWhitespace).reverse.dropWhile
    Char.isWhitespace).reverse)

/-- Strip all trailing `/` characters from a URL string. -/
def stripTrailingSlashes (s : String) : String :=
  String.mk ((s.data.reverse.dropWhile (fun c => c = '/')).reverse)

/-- `needle` occurs as a contiguous substring of `msg`. -/
def mentions (msg needle : String) : Prop :=
  needle.data <:+: msg.data

instance (msg needle : String) : Decidable (mentions msg needle) :=
  List.decidableInfix needle.data msg.data

/-- The error kinds the specification assigns to the adapter's throw sites. -/
inductive ErrKind where
  | validation
  | configuration
  | unsupported
deriving DecidableEq

/-- An error raised by the adapter: its spec-assigned kind and its message. -/
structure MMError where
  kind : ErrKind
  msg : String
deriving DecidableEq

/-- Message of the `ValidationError` raised for a required parameter that is
missing or blank; it names the field. -/
def missingParamMsg (key : String) : String :=
  "Missing required string parameter: " ++ key

/-- Modelled from the spec: `readStringParam(params, key)` without
`required` from the plugin SDK (not under the sources).  Optional read of a
string parameter; `trim` mirrors the SDK's trim option; a missing key, a
non-string value, or a value that is empty after trimming yields `none`. -/
def readStringParamOpt (params : Params) (key : String) (trim : Bool) :
    Option String :=
  match lookupParam params key with
  | some (JValue.str s) =>
    let v := if trim then wsTrim s else s
    if v == "" then none else some v
  | _ => none

/-- Modelled from the spec: `readStringParam(params, key, {required:true})`
from the plugin SDK (not under the sources).  Per §4.4, a required string
parameter that is missing or blank fails with a `ValidationError` naming the
field; `allowEmpty` admits the empty string (used by `send`'s message). -/
def readStringParamReq (params : Params) (key : String) (allowEmpty : Bool) :
    Except MMError String :=
  match lookupParam params key with
  | some (JValue.str s) =>
    let v := wsTrim s
    if v == "" && !allowEmpty then
      Except.error ⟨ErrKind.validation, missingParamMsg key⟩
    else
      Except.ok v
  | _ => Except.error ⟨ErrKind.validation, missingParamMsg key⟩

/-- Modelled from the spec: `readNumberParam(params, key, {integer:true})`
from the plugin SDK (not under the sources): optional integer parameter. -/
def readNumberParam (params : Params) (key : String) :
    Except MMError (Option Int) :=
  match lookupParam params key with
  | some (JValue.num n) => Except.ok (some n)
  | some JValue.null => Except.ok none
  | some _ =>
    Except.error ⟨ErrKind.validation, "Invalid numeric parameter: " ++ key⟩
  | none => Except.ok none

/-- Modelled from the spec: `readReactionParams(params, {removeErrorMessage})`
from the plugin SDK (not under the sources).  Reads the `emoji` string
parameter and the `remove` boolean flag; per §4.4, `react` with no emoji
fails with a `ValidationError` mentioning "emoji". -/
def readReactionParams (params : Params) (removeErrorMessage : String) :
    Except MMError (String × Bool) :=
  let remove := match lookupParam params "remove" with
    | some (JValue.bool b) => b
    | _ => false
  match readStringParamOpt params "emoji" true with
  | some e => Except.ok (e, remove)
  | none =>
    if remove then
      Except.error ⟨ErrKind.validation, removeErrorMessage⟩
    else
      Except.error
        ⟨ErrKind.validation,
         "Reacting to a Mattermost message requires an emoji name."⟩

/-- One Mattermost account from host configuration (§3): credential,
endpoint and enablement.  `enabled = true` means "not explicitly disabled". -/
structure MMAccount where
  accountId : String
  botToken : String
  baseUrl : String
  enabled : Bool
deriving DecidableEq

/-- The `channels.mattermost` slice of host configuration: its accounts and
the optional `actions` gate flags (`reactions` / `messages` / `pins`). -/
structure MattermostChannelConfig where
  accounts : List MMAccount
  actions : Option (List (String × Bool))
deriving DecidableEq

/-- The host configuration, restricted to what the adapter reads. -/
structure OpenClawConfig where
  mattermost : Option MattermostChannelConfig
deriving DecidableEq

/-- The accounts configured under `channels.mattermost`. -/
def accountsOf (cfg : OpenClawConfig) : List MMAccount :=
  match cfg.mattermost with
  | some m => m.accounts
  | none => []

/-- The `actions` gate-flag record under `channels.mattermost`. -/
def actionsConfigOf (cfg : OpenClawConfig) : Option (List (String × Bool)) :=
  match cfg.mattermost with
  | some m => m.actions
  | none => none

/-- Modelled from the spec: `listEnabledAccounts(config)` of §4.1 (the
accounts module is not under the sources): all accounts that are not
explicitly disabled and have a non-empty token and base URL, in
configuration order. -/
def listEnabledMattermostAccounts (cfg : OpenClawConfig) : List MMAccount :=
  (accountsOf cfg).filter
    (fun a => a.enabled && !(a.botToken == "") && !(a.baseUrl == ""))

/-- Modelled from the spec: `resolveAccount(config, accountId?)` of §4.1
(the accounts module is not under the sources): the account matching
`accountId` when given, otherwise a single default account (the first
configured one); fails with a `ConfigurationError` when none exists.  Per
§9 it does not re-check enablement or credentials. -/
def resolveMattermostAccount (cfg : OpenClawConfig)
    (accountId : Option String) : Except MMError MMAccount :=
  match accountId with
  | some id =>
    match (accountsOf cfg).find? (fun a => a.accountId == id) with
    | some a => Except.ok a
    | none =>
      Except.error
        ⟨ErrKind.configuration, "No Mattermost account matching " ++ id⟩
  | none =>
    match accountsOf cfg with
    | [] =>
      Except.error ⟨ErrKind.configuration, "No Mattermost account configured"⟩
    | a :: _ => Except.ok a

/-- Modelled from the spec: `createActionGate(actionsConfig)` of §4.3 (the
plugin SDK is not under the sources): for each gate name, `true` unless the
actions config maps it to `false`; an absent record or key means enabled. -/
def createActionGate (actionsConfig : Option (List (String × Bool)))
    (gateName : String) : Bool :=
  match actionsConfig with
  | none => true
  | some ac =>
    match List.lookup gateName ac with
    | some b => b
    | none => true

/-- The gate computed by `listActions` from `channels.mattermost.actions`. -/
def mattermostGate (cfg : OpenClawConfig) (gateName : String) : Bool :=
  createActionGate (actionsConfigOf cfg) gateName

/-- Modelled from the spec: base-URL normalization of §4.2 (the client
module is not under the sources): strip trailing slashes. -/
def normalizeMattermostBaseUrl (url : String) : String :=
  stripTrailingSlashes url

/-- The client handle of §3 minus its request capability (remote calls are
traced explicitly by the dispatcher embedding). -/
structure MattermostClient where
  baseUrl : String
  apiBaseUrl : String
  token : String
deriving DecidableEq

/-- Modelled from the spec: `createClient(baseUrl, token)` of §4.2 (the
client module is not under the sources): bundles the normalized base URL,
the API-versioned sub-path and the credential. -/
def createMattermostClient (baseUrl : String) (botToken : String) :
    MattermostClient :=
  ⟨baseUrl, baseUrl ++ "/api/v4", botToken⟩

/-- `resolveClient` from the sources: resolve the account, require a
non-blank token and a base URL that survives normalization, and build the
client; the two throw sites are the spec's `ConfigurationError`s naming the
account. -/
def resolveClient (cfg : OpenClawConfig) (accountId : Option String) :
    Except MMError (MattermostClient × String) :=
  match resolveMattermostAccount cfg accountId with
  | Except.error e => Except.error e
  | Except.ok account =>
    let token := wsTrim account.botToken
    if token == "" then
      Except.error
        ⟨ErrKind.configuration,
         "Mattermost bot token missing for account \"" ++
           account.accountId ++ "\""⟩
    else
      let baseUrl := normalizeMattermostBaseUrl account.baseUrl
      if baseUrl == "" then
        Except.error
          ⟨ErrKind.configuration,
           "Mattermost baseUrl missing for account \"" ++
             account.accountId ++ "\""⟩
      else
        Except.ok (createMattermostClient baseUrl token, account.accountId)

/-- `resolveChannelId` from the sources:
`readStringParam(params, "channelId") ?? readStringParam(params, "to",
{required:true})`. -/
def resolveChannelId (params : Params) : Except MMError String :=
  match readStringParamOpt params "channelId" true with
  | some s => Except.ok s
  | none => readStringParamReq params "to" false

/-- The `ctx.accountId ?? readStringParam(params, "accountId")` resolution
at the top of the dispatcher. -/
def effectiveAccountId (accountId0 : Option String) (params : Params) :
    Option String :=
  match accountId0 with
  | some a => some a
  | none => readStringParamOpt params "accountId" true

/-- The bot user returned by `fetchMattermostMe`. -/
structure MMUser where
  id : String
  username : String
deriving DecidableEq

/-- A reaction object as the remote server returns it. -/
structure MMReaction where
  user_id : String
  post_id : String
  emoji_name : String
  create_at : Int
deriving DecidableEq

/-- A post object as the remote server returns it; `root_id` and
`file_ids` are optional and may also be present but empty. -/
structure MMPost where
  id : String
  user_id : String
  message : String
  create_at : Int
  root_id : Option String
  file_ids : Option (List String)
deriving DecidableEq

/-- A remote list response `{order, posts}`: an ordering list of ids and a
mapping from id to post (embedded as an association list). -/
structure PostList where
  order : List String
  posts : List (String × MMPost)
deriving DecidableEq

/-- Mapping access `posts[id]`. -/
def lookupPost (posts : List (String × MMPost)) (id : String) :
    Option MMPost :=
  List.lookup id posts

/-- The value resolved by the external send collaborator. -/
structure SendResult where
  messageId : String
  channelId : String
deriving DecidableEq

/-- The responses the remote collaborators give during one dispatch. -/
structure RemoteEnv where
  me : MMUser
  reactionsFor : List MMReaction
  channelPosts : PostList
  pinnedPosts : PostList
  updatedPost : MMPost
  sendResult : SendResult
deriving DecidableEq

/-- One remote call issued by the dispatcher, with the arguments the
sources pass to the corresponding client function. -/
inductive RemoteCall where
  | fetchMe
  | addReaction (userId postId emojiName : String)
  | removeReaction (userId postId emojiName : String)
  | getReactions (postId : String)
  | getChannelPosts (channelId : String) (perPage : Option Int)
      (before after : Option String)
  | updatePost (postId message : String)
  | deletePost (postId : String)
  | pinPost (postId : String)
  | unpinPost (postId : String)
  | getPinnedPosts (channelId : String)
  | sendMessage (target message : String) (accountId : Option String)
      (mediaUrl replyToId : Option String)
deriving DecidableEq

/-- A normalized reaction `{userId, emoji, createdAt}`. -/
structure NormReaction where
  userId : String
  emoji : String
  createdAt : Int
deriving DecidableEq

/-- A normalized message for the `read` action; every field is optional
because the id in `order` may lack a post, and a `none` field is omitted
from the serialized result. -/
structure NormMessage where
  id : Option String
  userId : Option String
  message : Option String
  createdAt : Option Int
  rootId : Option String
  fileIds : Option (List String)
deriving DecidableEq

/-- A normalized pinned post for the `list-pins` action. -/
structure NormPin where
  id : Option String
  userId : Option String
  message : Option String
  createdAt : Option Int
deriving DecidableEq

/-- Normalize one reaction: `user_id`/`emoji_name`/`create_at` become
`userId`/`emoji`/`createdAt`. -/
def normalizeReaction (r : MMReaction) : NormReaction :=
  ⟨r.user_id, r.emoji_name, r.create_at⟩

/-- Normalize one entry of a `read` response: optional-chained field access
on a possibly missing post, `post?.root_id || undefined`, and
`post?.file_ids?.length ? post.file_ids : undefined`. -/
def normalizeMessage (p : Option MMPost) : NormMessage :=
  match p with
  | none => ⟨none, none, none, none, none, none⟩
  | some post =>
    ⟨some post.id, some post.user_id, some post.message, some post.create_at,
     (match post.root_id with
      | none => none
      | some r => if r == "" then none else some r),
     (match post.file_ids with
      | none => none
      | some ids => if ids.isEmpty then none else some ids)⟩

/-- Normalize one entry of a `list-pins` response. -/
def normalizePin (p : Option MMPost) : NormPin :=
  match p with
  | none => ⟨none, none, none, none⟩
  | some post =>
    ⟨some post.id, some post.user_id, some post.message, some post.create_at⟩

/-- `result.order.map(...)` in the `read` branch: iterate the server's
ordering list, looking each id up in the posts mapping. -/
def normalizeMessages (pl : PostList) : List NormMessage :=
  pl.order.map (fun id => normalizeMessage (lookupPost pl.posts id))

/-- `result.order.map(...)` in the `list-pins` branch. -/
def normalizePins (pl : PostList) : List NormPin :=
  pl.order.map (fun id => normalizePin (lookupPost pl.posts id))

/-- The result value of one action, `jsonResult`'s payload: each
constructor is one of the `{ok:true, ...}` object shapes the sources
build. -/
inductive ActionResult where
  | sendRes (r : SendResult)
  | reactAdded (emoji : String)
  | reactRemoved (emoji : String)
  | reactionsRes (messageId : String) (reactions : List NormReaction)
  | readRes (channelId : String) (messages : List NormMessage)
  | editRes (messageId message : String)
  | deleteRes (messageId : String)
  | pinRes (messageId : String)
  | unpinRes (messageId : String)
  | listPinsRes (channelId : String) (pins : List NormPin)
deriving DecidableEq

deriving instance DecidableEq for Except

/-- The outcome of one dispatch: the remote calls issued, in order, and the
returned result or the thrown error. -/
abbrev MMOutcome : Type := List RemoteCall × Except MMError ActionResult

/-- Sequencing of a validation/resolution step before any remote call: on
failure the error propagates and no remote call is issued. -/
def mmStep {α : Type} (x : Except MMError α) (k : α → MMOutcome) :
    MMOutcome :=
  match x with
  | Except.error e => ([], Except.error e)
  | Except.ok a => k a

/-- The `send` branch of the dispatcher. -/
def handleSend (params : Params) (accountId : Option String)
    (env : RemoteEnv) : MMOutcome :=
  mmStep (readStringParamReq params "to" false) (fun target =>
  mmStep (readStringParamReq params "message" true) (fun message =>
    let mediaUrl := readStringParamOpt params "media" false
    let replyTo := readStringParamOpt params "replyTo" true
    ([RemoteCall.sendMessage target message accountId mediaUrl replyTo],
     Except.ok (ActionResult.sendRes env.sendResult))))

/-- The `react` branch of the dispatcher: validate `messageId` and the
reaction parameters, resolve the client, fetch the bot identity, then add
or remove the reaction under that identity. -/
def handleReact (params : Params) (cfg : OpenClawConfig)
    (accountId : Option String) (env : RemoteEnv) : MMOutcome :=
  mmStep (readStringParamReq params "messageId" false) (fun messageId =>
  mmStep (readReactionParams params
      "Removing a Mattermost reaction requires an emoji name.") (fun er =>
  mmStep (resolveClient cfg accountId) (fun _client =>
    let botUser := env.me
    if er.2 then
      ([RemoteCall.fetchMe,
        RemoteCall.removeReaction botUser.id messageId er.1],
       Except.ok (ActionResult.reactRemoved er.1))
    else
      ([RemoteCall.fetchMe,
        RemoteCall.addReaction botUser.id messageId er.1],
       Except.ok (ActionResult.reactAdded er.1)))))

/-- The `reactions` branch of the dispatcher. -/
def handleReactions (params : Params) (cfg : OpenClawConfig)
    (accountId : Option String) (env : RemoteEnv) : MMOutcome :=
  mmStep (readStringParamReq params "messageId" false) (fun messageId =>
  mmStep (resolveClient cfg accountId) (fun _client =>
    ([RemoteCall.getReactions messageId],
     Except.ok (ActionResult.reactionsRes messageId
       (env.reactionsFor.map normalizeReaction)))))

/-- The `read` branch of the dispatcher. -/
def handleRead (params : Params) (cfg : OpenClawConfig)
    (accountId : Option String) (env : RemoteEnv) : MMOutcome :=
  mmStep (resolveChannelId params) (fun channelId =>
  mmStep (readNumberParam params "limit") (fun limit =>
    let before := readStringParamOpt params "before" true
    let after := readStringParamOpt params "after" true
    mmStep (resolveClient cfg accountId) (fun _client =>
      ([RemoteCall.getChannelPosts channelId limit before after],
       Except.ok (ActionResult.readRes channelId
         (normalizeMessages env.channelPosts))))))

/-- The `edit` branch of the dispatcher. -/
def handleEdit (params : Params) (cfg : OpenClawConfig)
    (accountId : Option String) (env : RemoteEnv) : MMOutcome :=
  mmStep (readStringParamReq params "messageId" false) (fun messageId =>
  mmStep (readStringParamReq params "message" false) (fun message =>
  mmStep (resolveClient cfg accountId) (fun _client =>
    ([RemoteCall.updatePost messageId message],
     Except.ok (ActionResult.editRes env.updatedPost.id
       env.updatedPost.message)))))

/-- The `delete` branch of the dispatcher. -/
def handleDelete (params : Params) (cfg : OpenClawConfig)
    (accountId : Option String) (_env : RemoteEnv) : MMOutcome :=
  mmStep (readStringParamReq params "messageId" false) (fun messageId =>
  mmStep (resolveClient cfg accountId) (fun _client =>
    ([RemoteCall.deletePost messageId],
     Except.ok (ActionResult.deleteRes messageId))))

/-- The `pin` branch of the dispatcher. -/
def handlePin (params : Params) (cfg : OpenClawConfig)
    (accountId : Option String) (_env : RemoteEnv) : MMOutcome :=
  mmStep (readStringParamReq params "messageId" false) (fun messageId =>
  mmStep (resolveClient cfg accountId) (fun _client =>
    ([RemoteCall.pinPost messageId],
     Except.ok (ActionResult.pinRes messageId))))

/-- The `unpin` branch of the dispatcher. -/
def handleUnpin (params : Params) (cfg : OpenClawConfig)
    (accountId : Option String) (_env : RemoteEnv) : MMOutcome :=
  mmStep (readStringParamReq params "messageId" false) (fun messageId =>
  mmStep (resolveClient cfg accountId) (fun _client =>
    ([RemoteCall.unpinPost messageId],
     Except.ok (ActionResult.unpinRes messageId))))

/-- The `list-pins` branch of the dispatcher. -/
def handleListPins (params : Params) (cfg : OpenClawConfig)
    (accountId : Option String) (env : RemoteEnv) : MMOutcome :=
  mmStep (resolveChannelId params) (fun channelId =>
  mmStep (resolveClient cfg accountId) (fun _client =>
    ([RemoteCall.getPinnedPosts channelId],
     Except.ok (ActionResult.listPinsRes channelId
       (normalizePins env.pinnedPosts)))))

/-- `handleMattermostAction` from the sources: resolve the effective
account id, then dispatch on the action name; an unknown name throws the
spec's `UnsupportedActionError`. -/
def handleMattermostAction (action : String) (params : Params)
    (cfg : OpenClawConfig) (accountId0 : Option String) (env : RemoteEnv) :
    MMOutcome :=
  let accountId := effectiveAccountId accountId0 params
  if action == "send" then handleSend params accountId env
  else if action == "react" then handleReact params cfg accountId env
  else if action == "reactions" then handleReactions params cfg accountId env
  else if action == "read" then handleRead params cfg accountId env
  else if action == "edit" then handleEdit params cfg accountId env
  else if action == "delete" then handleDelete params cfg accountId env
  else if action == "pin" then handlePin params cfg accountId env
  else if action == "unpin" then handleUnpin params cfg accountId env
  else if action == "list-pins" then handleListPins params cfg accountId env
  else
    ([], Except.error
      ⟨ErrKind.unsupported,
       "Action " ++ action ++ " is not supported for Mattermost."⟩)

/-- The fixed action table of the dispatcher. -/
def supportedActionNames : List String :=
  ["send", "react", "reactions", "read", "edit", "delete", "pin", "unpin",
   "list-pins"]

/-- `mattermostMessageActions.listActions` from the sources: keep the
enabled accounts with a truthy token and base URL; if none remain, no
actions; otherwise `send` plus the gated groups. -/
def listActions (cfg : OpenClawConfig) : List String :=
  let accounts := (listEnabledMattermostAccounts cfg).filter
    (fun a => !(a.botToken == "") && !(a.baseUrl == ""))
  if accounts.isEmpty then []
  else
    let gate := createActionGate (actionsConfigOf cfg)
    ["send"]
      ++ (if gate "reactions" then ["react", "reactions"] else [])
      ++ (if gate "messages" then ["read", "edit", "delete"] else [])
      ++ (if gate "pins" then ["pin", "unpin", "list-pins"] else [])

/-- `mattermostMessageActions.extractToolSend` from the sources: recognize
a `sendMessage` tool invocation and extract its non-empty string target,
otherwise `null`. -/
def extractToolSend (args : Params) : Option String :=
  let action := match lookupParam args "action" with
    | some (JValue.str s) => wsTrim s
    | _ => ""
  if action == "sendMessage" then
    match lookupParam args "to" with
    | some (JValue.str t) => if t == "" then none else some t
    | _ => none
  else none

/-- A parameter key is not present as a non-blank string: it is missing,
non-string, or blank after trimming.  Exactly the configurations in which
a required read of that key fails. -/
def noNonBlankString (params : Params) (key : String) : Prop :=
  ∀ s, lookupParam params key = some (JValue.str s) → wsTrim s = ""

/-- A valid account in configuration: enabled with a non-empty token and
base URL (the condition under which `listActions` advertises actions). -/
def validAccount (a : MMAccount) : Prop :=
  a.enabled = true ∧ a.botToken ≠ "" ∧ a.baseUrl ≠ ""

instance (a : MMAccount) : Decidable (validAccount a) :=
  inferInstanceAs (Decidable (_ ∧ _ ∧ _))

/-- `failsClean o`: the dispatch issued no remote call and rejected. -/
def failsClean (o : MMOutcome) : Prop :=
  o.1 = [] ∧ ∃ e, o.2 = Except.error e

/-- A valid test account, mirroring the unit-test fixture. -/
def acctGood : MMAccount := ⟨"default", "bot-tok", "https://mm.test", true⟩

/-- An enabled account whose token is whitespace only. -/
def acctBlankToken : MMAccount := ⟨"default", " ", "https://mm.test", true⟩

/-- A configuration with one valid account and no gate flags. -/
def cfgFull : OpenClawConfig := ⟨some ⟨[acctGood], none⟩⟩

/-- A configuration with one valid account and `actions.reactions=false`. -/
def cfgReactionsOff : OpenClawConfig :=
  ⟨some ⟨[acctGood], some [("reactions", false)]⟩⟩

/-- A configuration whose only account is explicitly disabled. -/
def cfgDisabled : OpenClawConfig :=
  ⟨some ⟨[⟨"default", "bot-tok", "https://mm.test", false⟩], none⟩⟩

/-- A configuration whose only account has a whitespace-only token. -/
def cfgBlankToken : OpenClawConfig := ⟨some ⟨[acctBlankToken], none⟩⟩

/-- A list response fixture: `order` disagrees with the mapping's insertion
order, the first post has empty `root_id` and `file_ids`. -/
def samplePosts : PostList :=
  ⟨["p1", "p2"],
   [("p2", ⟨"p2", "u2", "second", 2000, some "root-1", some ["f1"]⟩),
    ("p1", ⟨"p1", "u1", "first", 1000, some "", some []⟩)]⟩

/-- A list response whose `order` names an id absent from the mapping. -/
def sparsePosts : PostList := ⟨["p1", "missing"],
  [("p1", ⟨"p1", "u1", "first", 1000, some "", some []⟩)]⟩

/-- A remote environment fixture mirroring the unit-test mocks. -/
def envTest : RemoteEnv :=
  ⟨⟨"bot-user-id", "bot"⟩, [⟨"u1", "post-1", "thumbsup", 1000⟩],
   samplePosts,
   ⟨["pin-1"], [("pin-1", ⟨"pin-1", "u1", "pinned msg", 2000, none, none⟩)]⟩,
   ⟨"post-1", "u1", "edited", 1000, none, none⟩,
   ⟨"new-msg-1", "ch-1"⟩⟩

theorem readStringParamReq_of_missing (params : Params) (key : String)
    (h : noNonBlankString params key) :
    readStringParamReq params key false =
      Except.error ⟨ErrKind.validation, missingParamMsg key⟩ := by
  unfold readStringParamReq
  cases hl : lookupParam params key with
  | none => rfl
  | some v =>
    cases v with
    | str s => simp [h s hl]
    | num n => rfl
    | bool b => rfl
    | null => rfl

theorem readStringParamReq_of_str (params : Params) (key s : String)
    (hl : lookupParam params key = some (JValue.str s))
    (hs : wsTrim s ≠ "") :
    readStringParamReq params key false = Except.ok (wsTrim s) := by
  unfold readStringParamReq
  rw [hl]
  simp [hs]

theorem readStringParamReq_of_absent (params : Params) (key : String)
    (allowEmpty : Bool) (h : lookupParam params key = none) :
    readStringParamReq params key allowEmpty =
      Except.error ⟨ErrKind.validation, missingParamMsg key⟩ := by
  unfold readStringParamReq
  rw [h]

theorem readStringParamOpt_of_missing (params : Params) (key : String)
    (h : noNonBlankString params key) :
    readStringParamOpt params key true = none := by
  unfold readStringParamOpt
  cases hl : lookupParam params key with
  | none => rfl
  | some v =>
    cases v with
    | str s => simp [h s hl]
    | num n => rfl
    | bool b => rfl
    | null => rfl

theorem readStringParamOpt_of_str (params : Params) (key s : String)
    (hl : lookupParam params key = some (JValue.str s))
    (hs : wsTrim s ≠ "") :
    readStringParamOpt params key true = some (wsTrim s) := by
  unfold readStringParamOpt
  rw [hl]
  simp [hs]

theorem noNonBlankString_of_none (params : Params) (key : String)
    (h : lookupParam params key = none) : noNonBlankString params key :=
  fun _ hs => Option.noConfusion (h.symm.trans hs)

theorem listActions_shape (cfg : OpenClawConfig) (a : MMAccount)
    (ha : a ∈ accountsOf cfg) (hv : validAccount a) :
    listActions cfg =
      ["send"]
        ++ (if createActionGate (actionsConfigOf cfg) "reactions" then
              ["react", "reactions"] else [])
        ++ (if createActionGate (actionsConfigOf cfg) "messages" then
              ["read", "edit", "delete"] else [])
        ++ (if createActionGate (actionsConfigOf cfg) "pins" then
              ["pin", "unpin", "list-pins"] else []) := by
  obtain ⟨he, ht, hb⟩ := hv
  have hmem : a ∈ (listEnabledMattermostAccounts cfg).filter
      (fun a => !(a.botToken == "") && !(a.baseUrl == "")) := by
    simp [listEnabledMattermostAccounts, List.mem_filter, ha, he, ht, hb]
  unfold listActions
  cases hl : (listEnabledMattermostAccounts cfg).filter
      (fun a => !(a.botToken == "") && !(a.baseUrl == "")) with
  | nil => exact absurd (hl ▸ hmem) (List.not_mem_nil a)
  | cons x xs => simp

theorem readReactionParams_no_emoji (params : Params) (rmMsg : String)
    (h : noNonBlankString params "emoji") :
    ∃ m, readReactionParams params rmMsg =
        Except.error ⟨ErrKind.validation, m⟩ ∧
      (m = rmMsg ∨
        m = "Reacting to a Mattermost message requires an emoji name.") := by
  unfold readReactionParams
  rw [readStringParamOpt_of_missing params "emoji" h]
  cases hrv : lookupParam params "remove" with
  | none => exact ⟨_, by simp [hrv], Or.inr rfl⟩
  | some v =>
    cases v with
    | str s => exact ⟨_, by simp [hrv], Or.inr rfl⟩
    | num n => exact ⟨_, by simp [hrv], Or.inr rfl⟩
    | null => exact ⟨_, by simp [hrv], Or.inr rfl⟩
    | bool b =>
      cases b with
      | false => exact ⟨_, by simp [hrv], Or.inr rfl⟩
      | true => exact ⟨_, by simp [hrv], Or.inl rfl⟩

theorem handleRead_ok_inv (params : Params) (cfg : OpenClawConfig)
    (acc0 : Option String) (env : RemoteEnv) (tr : List RemoteCall)
    (ch : String) (msgs : List NormMessage)
    (heq : handleMattermostAction "read" params cfg acc0 env =
      (tr, Except.ok (ActionResult.readRes ch msgs))) :
    resolveChannelId params = Except.ok ch
    ∧ msgs = normalizeMessages env.channelPosts
    ∧ ∃ limit, tr = [RemoteCall.getChannelPosts ch limit
        (readStringParamOpt params "before" true)
        (readStringParamOpt params "after" true)] := by
  have hh : handleMattermostAction "read" params cfg acc0 env =
      handleRead params cfg (effectiveAccountId acc0 params) env := rfl
  rw [hh] at heq
  unfold handleRead at heq
  cases hrc : resolveChannelId params with
  | error e => rw [hrc] at heq; simp [mmStep] at heq
  | ok c =>
    rw [hrc] at heq
    cases hn : readNumberParam params "limit" with
    | error e => rw [hn] at heq; simp [mmStep] at heq
    | ok limit =>
      rw [hn] at heq
      cases hcl : resolveClient cfg (effectiveAccountId acc0 params) with
      | error e => rw [hcl] at heq; simp [mmStep] at heq
      | ok cl =>
        rw [hcl] at heq
        simp only [mmStep] at heq
        have h1 := congrArg Prod.fst heq
        have h2 := congrArg Prod.snd heq
        have h3 : c = ch ∧ normalizeMessages env.channelPosts = msgs := by
          simpa using h2
        obtain ⟨hc2, hm2⟩ := h3
        subst hc2
        exact ⟨rfl, hm2.symm, limit, h1.symm⟩

theorem handleListPins_ok_inv (params : Params) (cfg : OpenClawConfig)
    (acc0 : Option String) (env : RemoteEnv) (tr : List RemoteCall)
    (ch : String) (pins : List NormPin)
    (heq : handleMattermostAction "list-pins" params cfg acc0 env =
      (tr, Except.ok (ActionResult.listPinsRes ch pins))) :
    resolveChannelId params = Except.ok ch
    ∧ pins = normalizePins env.pinnedPosts
    ∧ tr = [RemoteCall.getPinnedPosts ch] := by
  have hh : handleMattermostAction "list-pins" params cfg acc0 env =
      handleListPins params cfg (effectiveAccountId acc0 params) env := rfl
  rw [hh] at heq
  unfold handleListPins at heq
  cases hrc : resolveChannelId params with
  | error e => rw [hrc] at heq; simp [mmStep] at heq
  | ok c =>
    rw [hrc] at heq
    cases hcl : resolveClient cfg (effectiveAccountId acc0 params) with
    | error e => rw [hcl] at heq; simp [mmStep] at heq
    | ok cl =>
      rw [hcl] at heq
      simp only [mmStep] at heq
      have h1 := congrArg Prod.fst heq
      have h2 := congrArg Prod.snd heq
      have h3 : c = ch ∧ normalizePins env.pinnedPosts = pins := by
        simpa using h2
      obtain ⟨hc2, hp2⟩ := h3
      subst hc2
      exact ⟨rfl, hp2.symm, h1.symm⟩

theorem mmStep_failsClean {α : Type} (x : Except MMError α)
    (k : α → MMOutcome) (h : ∀ a, failsClean (k a)) :
    failsClean (mmStep x k) := by
  cases x with
  | error e => exact ⟨rfl, e, rfl⟩
  | ok a => exact h a

theorem nonsend_error_outcome (action : String) (params : Params)
    (cfg : OpenClawConfig) (acc0 : Option String) (env : RemoteEnv)
    (e : MMError) (hns : action ≠ "send")
    (he : resolveClient cfg (effectiveAccountId acc0 params) =
      Except.error e) :
    failsClean (handleMattermostAction action params cfg acc0 env) := by
  by_cases h1 : action = "react"
  · subst h1
    show failsClean
      (handleReact params cfg (effectiveAccountId acc0 params) env)
    unfold handleReact
    apply mmStep_failsClean
    intro mid
    apply mmStep_failsClean
    intro er
    simp only [he]
    exact ⟨rfl, e, rfl⟩
  by_cases h2 : action = "reactions"
  · subst h2
    show failsClean
      (handleReactions params cfg (effectiveAccountId acc0 params) env)
    unfold handleReactions
    apply mmStep_failsClean
    intro mid
    simp only [he]
    exact ⟨rfl, e, rfl⟩
  by_cases h3 : action = "read"
  · subst h3
    show failsClean
      (handleRead params cfg (effectiveAccountId acc0 params) env)
    unfold handleRead
    apply mmStep_failsClean
    intro ch
    apply mmStep_failsClean
    intro limit
    simp only [he]
    exact ⟨rfl, e, rfl⟩
  by_cases h4 : action = "edit"
  · subst h4
    show failsClean
      (handleEdit params cfg (effectiveAccountId acc0 params) env)
    unfold handleEdit
    apply mmStep_failsClean
    intro mid
    apply mmStep_failsClean
    intro msg
    simp only [he]
    exact ⟨rfl, e, rfl⟩
  by_cases h5 : action = "delete"
  · subst h5
    show failsClean
      (handleDelete params cfg (effectiveAccountId acc0 params) env)
    unfold handleDelete
    apply mmStep_failsClean
    intro mid
    simp only [he]
    exact ⟨rfl, e, rfl⟩
  by_cases h6 : action = "pin"
  · subst h6
    show failsClean
      (handlePin params cfg (effectiveAccountId acc0 params) env)
    unfold handlePin
    apply mmStep_failsClean
    intro mid
    simp only [he]
    exact ⟨rfl, e, rfl⟩
  by_cases h7 : action = "unpin"
  · subst h7
    show failsClean
      (handleUnpin params cfg (effectiveAccountId acc0 params) env)
    unfold handleUnpin
    apply mmStep_failsClean
    intro mid
    simp only [he]
    exact ⟨rfl, e, rfl⟩
  by_cases h8 : action = "list-pins"
  · subst h8
    show failsClean
      (handleListPins params cfg (effectiveAccountId acc0 params) env)
    unfold handleListPins
    apply mmStep_failsClean
    intro ch
    simp only [he]
    exact ⟨rfl, e, rfl⟩
  unfold handleMattermostAction
  simp only [beq_iff_eq]
  rw [if_neg hns, if_neg h1, if_neg h2, if_neg h3, if_neg h4, if_neg h5,
    if_neg h6, if_neg h7, if_neg h8]
  exact ⟨rfl, _, rfl⟩

/-- C1: for every configuration with at least one enabled account having a
non-empty botToken and baseUrl, `listActions` returns `send` plus exactly
the gated groups: membership is characterized gate by gate, with all gates
open the result is exactly the nine-action table, and a gate is closed
exactly when the actions config maps it to `false` — so setting one gate to
`false` removes exactly that gate's group and nothing else. -/
theorem c1_listActions_gating (cfg : OpenClawConfig)
    (h : ∃ a ∈ accountsOf cfg, validAccount a) :
    (∀ act : String,
      act ∈ listActions cfg ↔
        (act = "send"
         ∨ (mattermostGate cfg "reactions" = true ∧
              (act = "react" ∨ act = "reactions"))
         ∨ (mattermostGate cfg "messages" = true ∧
              (act = "read" ∨ act = "edit" ∨ act = "delete"))
         ∨ (mattermostGate cfg "pins" = true ∧
              (act = "pin" ∨ act = "unpin" ∨ act = "list-pins"))))
    ∧ ((mattermostGate cfg "reactions" = true ∧
          mattermostGate cfg "messages" = true ∧
          mattermostGate cfg "pins" = true) →
        listActions cfg = supportedActionNames)
    ∧ (∀ g, mattermostGate cfg g = false ↔
        (∃ ac, actionsConfigOf cfg = some ac ∧
          List.lookup g ac = some false)) := by
  obtain ⟨a, ha, hv⟩ := h
  have hshape := listActions_shape cfg a ha hv
  refine ⟨?_, ?_, ?_⟩
  · intro act
    rw [hshape]
    unfold mattermostGate
    cases hg1 : createActionGate (actionsConfigOf cfg) "reactions" <;>
      cases hg2 : createActionGate (actionsConfigOf cfg) "messages" <;>
        cases hg3 : createActionGate (actionsConfigOf cfg) "pins" <;>
          simp <;> tauto
  · intro ⟨hg1, hg2, hg3⟩
    unfold mattermostGate at hg1 hg2 hg3
    rw [hshape, hg1, hg2, hg3]
    rfl
  · intro g
    unfold mattermostGate createActionGate
    cases hac : actionsConfigOf cfg with
    | none => simp
    | some ac =>
      cases hlk : List.lookup g ac with
      | none => simp [hlk]
      | some b => cases b <;> simp [hlk]

/-- C1 witness: the gate characterization applied to a concrete
configuration with one valid account and `actions.reactions=false`. -/
theorem c1_witness :
    (∃ a ∈ accountsOf cfgReactionsOff, validAccount a)
    ∧ ("react" ∈ listActions cfgReactionsOff ↔
        ("react" = "send"
         ∨ (mattermostGate cfgReactionsOff "reactions" = true ∧
              ("react" = "react" ∨ "react" = "reactions"))
         ∨ (mattermostGate cfgReactionsOff "messages" = true ∧
              ("react" = "read" ∨ "react" = "edit" ∨ "react" = "delete"))
         ∨ (mattermostGate cfgReactionsOff "pins" = true ∧
              ("react" = "pin" ∨ "react" = "unpin" ∨
                "react" = "list-pins")))) :=
  ⟨⟨acctGood, by decide, by decide⟩,
   (c1_listActions_gating cfgReactionsOff
     ⟨acctGood, by decide, by decide⟩).1 "react"⟩

/-- C2: a configuration in which no enabled account has a non-empty
botToken and baseUrl advertises no actions at all, regardless of gates. -/
theorem c2_listActions_empty (cfg : OpenClawConfig)
    (h : ∀ a ∈ accountsOf cfg, ¬ validAccount a) :
    listActions cfg = [] := by
  have hfil : listEnabledMattermostAccounts cfg = [] := by
    unfold listEnabledMattermostAccounts
    rw [List.filter_eq_nil_iff]
    intro a ha
    have hna := h a ha
    simp only [validAccount, not_and] at hna
    simp only [Bool.and_eq_true, Bool.not_eq_true', beq_eq_false_iff_ne,
      ne_eq]
    rintro ⟨⟨he, ht⟩, hb⟩
    exact hna he ht hb
  unfold listActions
  rw [hfil]
  rfl

/-- C2 witness: a configuration whose only account is disabled advertises
nothing. -/
theorem c2_witness :
    (∀ a ∈ accountsOf cfgDisabled, ¬ validAccount a)
    ∧ listActions cfgDisabled = [] :=
  ⟨by decide, c2_listActions_empty cfgDisabled (by decide)⟩

/-- C3: `react` with non-blank messageId and emoji first fetches the bot's
own identity, then issues an add-reaction call carrying that bot user id,
the messageId as postId and the emoji, returning `{ok, added:emoji}`; with
`remove:true` it issues a remove-reaction call with the same three fields
and returns `{ok, removed:true, emoji}`. -/
theorem c3_react (params : Params) (cfg : OpenClawConfig)
    (accountId0 : Option String) (env : RemoteEnv)
    (cl : MattermostClient × String) (mid emoji : String)
    (hm : lookupParam params "messageId" = some (JValue.str mid))
    (hmb : wsTrim mid ≠ "")
    (he : lookupParam params "emoji" = some (JValue.str emoji))
    (heb : wsTrim emoji ≠ "")
    (hc : resolveClient cfg (effectiveAccountId accountId0 params) =
      Except.ok cl) :
    (lookupParam params "remove" = none →
      handleMattermostAction "react" params cfg accountId0 env =
        ([RemoteCall.fetchMe,
          RemoteCall.addReaction env.me.id (wsTrim mid) (wsTrim emoji)],
         Except.ok (ActionResult.reactAdded (wsTrim emoji))))
    ∧ (lookupParam params "remove" = some (JValue.bool true) →
      handleMattermostAction "react" params cfg accountId0 env =
        ([RemoteCall.fetchMe,
          RemoteCall.removeReaction env.me.id (wsTrim mid) (wsTrim emoji)],
         Except.ok (ActionResult.reactRemoved (wsTrim emoji)))) := by
  have h1 : handleMattermostAction "react" params cfg accountId0 env =
      handleReact params cfg (effectiveAccountId accountId0 params) env :=
    rfl
  refine ⟨?_, ?_⟩ <;> intro hr <;>
    rw [h1] <;>
    unfold handleReact readReactionParams <;>
    rw [readStringParamReq_of_str params "messageId" mid hm hmb,
      readStringParamOpt_of_str params "emoji" emoji he heb, hr] <;>
    simp [mmStep, hc]

/-- C3 witness: the add-reaction case at the unit-test fixture. -/
theorem c3_witness :
    handleMattermostAction "react"
      [("messageId", JValue.str "post-1"), ("emoji", JValue.str "thumbsup")]
      cfgFull none envTest =
      ([RemoteCall.fetchMe,
        RemoteCall.addReaction "bot-user-id" "post-1" "thumbsup"],
       Except.ok (ActionResult.reactAdded "thumbsup")) := by
  have h := (c3_react
    [("messageId", JValue.str "post-1"), ("emoji", JValue.str "thumbsup")]
    cfgFull none envTest
    (⟨"https://mm.test", "https://mm.test/api/v4", "bot-tok"⟩, "default")
    "post-1" "thumbsup" (by decide) (by decide) (by decide) (by decide)
    (by decide)).1 (by decide)
  exact h.trans (by decide)

/-- C4: normalization of `read` / `list-pins` list responses follows
exactly the `order` list — one output element per id of `order`, in that
order — independent of the insertion order of the posts mapping, and
optional fields `root_id` / `file_ids` that are missing or empty are
omitted (and kept exactly when present and non-empty); whatever the remote
returns, a successful `read` / `list-pins` dispatch carries precisely
these normalized sequences. -/
theorem c4_normalization (pl pl2 : PostList) :
    ((normalizeMessages pl).length = pl.order.length
      ∧ (normalizePins pl).length = pl.order.length)
    ∧ (∀ i : Nat, (normalizeMessages pl)[i]? =
        (pl.order[i]?).map
          (fun id => normalizeMessage (lookupPost pl.posts id)))
    ∧ (∀ i : Nat, (normalizePins pl)[i]? =
        (pl.order[i]?).map
          (fun id => normalizePin (lookupPost pl.posts id)))
    ∧ (pl2.order = pl.order →
        (∀ id, lookupPost pl2.posts id = lookupPost pl.posts id) →
        normalizeMessages pl2 = normalizeMessages pl
        ∧ normalizePins pl2 = normalizePins pl)
    ∧ (∀ p : MMPost, (p.root_id = none ∨ p.root_id = some "") →
        (normalizeMessage (some p)).rootId = none)
    ∧ (∀ (p : MMPost) (r : String), p.root_id = some r → r ≠ "" →
        (normalizeMessage (some p)).rootId = some r)
    ∧ (∀ p : MMPost, (p.file_ids = none ∨ p.file_ids = some []) →
        (normalizeMessage (some p)).fileIds = none)
    ∧ (∀ (p : MMPost) (ids : List String), p.file_ids = some ids →
        ids ≠ [] → (normalizeMessage (some p)).fileIds = some ids)
    ∧ (∀ (pr : Params) (cfg : OpenClawConfig) (acc : Option String)
        (env : RemoteEnv) (tr : List RemoteCall) (ch : String)
        (msgs : List NormMessage),
        handleMattermostAction "read" pr cfg acc env =
          (tr, Except.ok (ActionResult.readRes ch msgs)) →
        msgs = normalizeMessages env.channelPosts)
    ∧ (∀ (pr : Params) (cfg : OpenClawConfig) (acc : Option String)
        (env : RemoteEnv) (tr : List RemoteCall) (ch : String)
        (pins : List NormPin),
        handleMattermostAction "list-pins" pr cfg acc env =
          (tr, Except.ok (ActionResult.listPinsRes ch pins)) →
        pins = normalizePins env.pinnedPosts) := by
  refine ⟨⟨by simp [normalizeMessages], by simp [normalizePins]⟩,
    ?_, ?_, ?_, ?_, ?_, ?_, ?_, ?_, ?_⟩
  · intro i
    simp [normalizeMessages, List.getElem?_map]
  · intro i
    simp [normalizePins, List.getElem?_map]
  · intro h1 h2
    constructor
    · unfold normalizeMessages
      rw [h1]
      exact List.map_congr_left (fun id _ => by rw [h2 id])
    · unfold normalizePins
      rw [h1]
      exact List.map_congr_left (fun id _ => by rw [h2 id])
  · rintro p (h | h) <;> simp [normalizeMessage, h]
  · intro p r h hr
    simp [normalizeMessage, h, hr]
  · rintro p (h | h) <;> simp [normalizeMessage, h]
  · intro p ids h hids
    simp [normalizeMessage, h, hids]
  · intro pr cfg acc env tr ch msgs heq
    exact (handleRead_ok_inv pr cfg acc env tr ch msgs heq).2.1
  · intro pr cfg acc env tr ch pins heq
    exact (handleListPins_ok_inv pr cfg acc env tr ch pins heq).2.1

/-- C4 witness: the order-following characterization applied to a fixture
whose mapping insertion order disagrees with `order`, plus the concrete
normalized value showing empty `root_id` / `file_ids` omitted. -/
theorem c4_witness :
    normalizeMessages samplePosts =
      [⟨some "p1", some "u1", some "first", some 1000, none, none⟩,
       ⟨some "p2", some "u2", some "second", some 2000, some "root-1",
        some ["f1"]⟩]
    ∧ (normalizeMessages samplePosts)[0]? =
        (samplePosts.order[0]?).map
          (fun id => normalizeMessage (lookupPost samplePosts.posts id)) :=
  ⟨by decide, (c4_normalization samplePosts samplePosts).2.1 0⟩

/-- C5: every required string parameter of every dispatched action that is
missing or blank makes the dispatch reject with a `ValidationError` naming
the field and issue no remote call: `messageId` for `react`, `reactions`,
`edit`, `delete`, `pin` and `unpin`; `emoji` for `react` (once `messageId`
is present); `message` for `edit` (once `messageId` is present); the
channel (required `to` once `channelId` is absent or blank) for `read` and
`list-pins`; and `to` and `message` for `send` — `send`'s `message` is
read with `allowEmpty`, so a blank message is deliberately accepted and its
rejection case is the absent key. -/
theorem c5_validation_errors (params : Params) (cfg : OpenClawConfig)
    (accountId0 : Option String) (env : RemoteEnv) :
    (noNonBlankString params "messageId" →
      ∃ m, handleMattermostAction "react" params cfg accountId0 env =
          ([], Except.error ⟨ErrKind.validation, m⟩) ∧
        mentions m "messageId")
    ∧ (∀ mid, lookupParam params "messageId" = some (JValue.str mid) →
        wsTrim mid ≠ "" → noNonBlankString params "emoji" →
      ∃ m, handleMattermostAction "react" params cfg accountId0 env =
          ([], Except.error ⟨ErrKind.validation, m⟩) ∧
        mentions m "emoji")
    ∧ (noNonBlankString params "messageId" →
      ∃ m, handleMattermostAction "reactions" params cfg accountId0 env =
          ([], Except.error ⟨ErrKind.validation, m⟩) ∧
        mentions m "messageId")
    ∧ (noNonBlankString params "messageId" →
      ∃ m, handleMattermostAction "edit" params cfg accountId0 env =
          ([], Except.error ⟨ErrKind.validation, m⟩) ∧
        mentions m "messageId")
    ∧ (∀ mid, lookupParam params "messageId" = some (JValue.str mid) →
        wsTrim mid ≠ "" → noNonBlankString params "message" →
      ∃ m, handleMattermostAction "edit" params cfg accountId0 env =
          ([], Except.error ⟨ErrKind.validation, m⟩) ∧
        mentions m "message")
    ∧ (noNonBlankString params "messageId" →
      ∃ m, handleMattermostAction "delete" params cfg accountId0 env =
          ([], Except.error ⟨ErrKind.validation, m⟩) ∧
        mentions m "messageId")
    ∧ (noNonBlankString params "messageId" →
      ∃ m, handleMattermostAction "pin" params cfg accountId0 env =
          ([], Except.error ⟨ErrKind.validation, m⟩) ∧
        mentions m "messageId")
    ∧ (noNonBlankString params "messageId" →
      ∃ m, handleMattermostAction "unpin" params cfg accountId0 env =
          ([], Except.error ⟨ErrKind.validation, m⟩) ∧
        mentions m "messageId")
    ∧ (noNonBlankString params "channelId" → noNonBlankString params "to" →
      ∃ m, handleMattermostAction "read" params cfg accountId0 env =
          ([], Except.error ⟨ErrKind.validation, m⟩) ∧
        mentions m "to")
    ∧ (noNonBlankString params "channelId" → noNonBlankString params "to" →
      ∃ m, handleMattermostAction "list-pins" params cfg accountId0 env =
          ([], Except.error ⟨ErrKind.validation, m⟩) ∧
        mentions m "to")
    ∧ (noNonBlankString params "to" →
      ∃ m, handleMattermostAction "send" params cfg accountId0 env =
          ([], Except.error ⟨ErrKind.validation, m⟩) ∧
        mentions m "to")
    ∧ (∀ toV, lookupParam params "to" = some (JValue.str toV) →
        wsTrim toV ≠ "" → lookupParam params "message" = none →
      ∃ m, handleMattermostAction "send" params cfg accountId0 env =
          ([], Except.error ⟨ErrKind.validation, m⟩) ∧
        mentions m "message") := by
  have hre : handleMattermostAction "react" params cfg accountId0 env =
      handleReact params cfg (effectiveAccountId accountId0 params) env :=
    rfl
  have hrs : handleMattermostAction "reactions" params cfg accountId0 env =
      handleReactions params cfg (effectiveAccountId accountId0 params)
        env := rfl
  have hed : handleMattermostAction "edit" params cfg accountId0 env =
      handleEdit params cfg (effectiveAccountId accountId0 params) env :=
    rfl
  have hdl : handleMattermostAction "delete" params cfg accountId0 env =
      handleDelete params cfg (effectiveAccountId accountId0 params) env :=
    rfl
  have hpn : handleMattermostAction "pin" params cfg accountId0 env =
      handlePin params cfg (effectiveAccountId accountId0 params) env :=
    rfl
  have hup : handleMattermostAction "unpin" params cfg accountId0 env =
      handleUnpin params cfg (effectiveAccountId accountId0 params) env :=
    rfl
  have hrd : handleMattermostAction "read" params cfg accountId0 env =
      handleRead params cfg (effectiveAccountId accountId0 params) env :=
    rfl
  have hlp : handleMattermostAction "list-pins" params cfg accountId0 env =
      handleListPins params cfg (effectiveAccountId accountId0 params)
        env := rfl
  have hse : handleMattermostAction "send" params cfg accountId0 env =
      handleSend params (effectiveAccountId accountId0 params) env := rfl
  refine ⟨?_, ?_, ?_, ?_, ?_, ?_, ?_, ?_, ?_, ?_, ?_, ?_⟩
  · intro h
    refine ⟨missingParamMsg "messageId", ?_, by decide⟩
    rw [hre]
    unfold handleReact
    rw [readStringParamReq_of_missing params "messageId" h]
    rfl
  · intro mid hm hmb h
    obtain ⟨m, hm', hd⟩ := readReactionParams_no_emoji params
      "Removing a Mattermost reaction requires an emoji name." h
    refine ⟨m, ?_, ?_⟩
    · rw [hre]
      unfold handleReact
      rw [readStringParamReq_of_str params "messageId" mid hm hmb, hm']
      rfl
    · rcases hd with rfl | rfl <;> decide
  · intro h
    refine ⟨missingParamMsg "messageId", ?_, by decide⟩
    rw [hrs]
    unfold handleReactions
    rw [readStringParamReq_of_missing params "messageId" h]
    rfl
  · intro h
    refine ⟨missingParamMsg "messageId", ?_, by decide⟩
    rw [hed]
    unfold handleEdit
    rw [readStringParamReq_of_missing params "messageId" h]
    rfl
  · intro mid hm hmb h
    refine ⟨missingParamMsg "message", ?_, by decide⟩
    rw [hed]
    unfold handleEdit
    rw [readStringParamReq_of_str params "messageId" mid hm hmb,
      readStringParamReq_of_missing params "message" h]
    rfl
  · intro h
    refine ⟨missingParamMsg "messageId", ?_, by decide⟩
    rw [hdl]
    unfold handleDelete
    rw [readStringParamReq_of_missing params "messageId" h]
    rfl
  · intro h
    refine ⟨missingParamMsg "messageId", ?_, by decide⟩
    rw [hpn]
    unfold handlePin
    rw [readStringParamReq_of_missing params "messageId" h]
    rfl
  · intro h
    refine ⟨missingParamMsg "messageId", ?_, by decide⟩
    rw [hup]
    unfold handleUnpin
    rw [readStringParamReq_of_missing params "messageId" h]
    rfl
  · intro h1 h2
    refine ⟨missingParamMsg "to", ?_, by decide⟩
    rw [hrd]
    unfold handleRead resolveChannelId
    rw [readStringParamOpt_of_missing params "channelId" h1,
      readStringParamReq_of_missing params "to" h2]
    rfl
  · intro h1 h2
    refine ⟨missingParamMsg "to", ?_, by decide⟩
    rw [hlp]
    unfold handleListPins resolveChannelId
    rw [readStringParamOpt_of_missing params "channelId" h1,
      readStringParamReq_of_missing params "to" h2]
    rfl
  · intro h
    refine ⟨missingParamMsg "to", ?_, by decide⟩
    rw [hse]
    unfold handleSend
    rw [readStringParamReq_of_missing params "to" h]
    rfl
  · intro toV ht htb h
    refine ⟨missingParamMsg "message", ?_, by decide⟩
    rw [hse]
    unfold handleSend
    rw [readStringParamReq_of_str params "to" toV ht htb,
      readStringParamReq_of_absent params "message" true h]
    rfl

/-- C5 witness: `react` with a messageId but no emoji rejects mentioning
"emoji" without issuing a remote call. -/
theorem c5_witness :
    ∃ m, handleMattermostAction "react"
        [("messageId", JValue.str "post-1")] cfgFull none envTest =
        ([], Except.error ⟨ErrKind.validation, m⟩) ∧
      mentions m "emoji" :=
  (c5_validation_errors [("messageId", JValue.str "post-1")] cfgFull none
    envTest).2.1 "post-1" (by decide) (by decide)
    (noNonBlankString_of_none _ _ (by decide))

/-- C6: every action name outside the fixed table rejects with an
`UnsupportedActionError` whose message names the action and mentions
"not supported", for every params, config and environment. -/
theorem c6_unsupported (action : String) (params : Params)
    (cfg : OpenClawConfig) (accountId0 : Option String) (env : RemoteEnv)
    (h : action ∉ supportedActionNames) :
    ∃ m, handleMattermostAction action params cfg accountId0 env =
        ([], Except.error ⟨ErrKind.unsupported, m⟩) ∧
      mentions m action ∧ mentions m "not supported" := by
  simp only [supportedActionNames, List.mem_cons, List.not_mem_nil,
    or_false, not_or] at h
  obtain ⟨h1, h2, h3, h4, h5, h6, h7, h8, h9⟩ := h
  have hdata : ("Action " ++ action ++
      " is not supported for Mattermost.").data =
      "Action ".data ++ (action.data ++
        " is not supported for Mattermost.".data) := by
    simp [String.data_append]
  refine ⟨"Action " ++ action ++ " is not supported for Mattermost.",
    ?_, ?_, ?_⟩
  · unfold handleMattermostAction
    simp [h1, h2, h3, h4, h5, h6, h7, h8, h9]
  · show action.data <:+:
      ("Action " ++ action ++ " is not supported for Mattermost.").data
    rw [hdata]
    exact ⟨"Action ".data, " is not supported for Mattermost.".data,
      by simp⟩
  · show ("not supported").data <:+:
      ("Action " ++ action ++ " is not supported for Mattermost.").data
    rw [hdata]
    have hsub : ("not supported").data <:+:
        (" is not supported for Mattermost.").data := by decide
    have hsuf : (" is not supported for Mattermost.").data <:+:
        "Action ".data ++ (action.data ++
          " is not supported for Mattermost.".data) :=
      (List.suffix_append _ _).isInfix.trans
        (List.suffix_append _ _).isInfix
    exact hsub.trans hsuf

/-- C6 witness: the unit-test's `unknownAction` case. -/
theorem c6_witness :
    ∃ m, handleMattermostAction "unknownAction" [] cfgFull none envTest =
        ([], Except.error ⟨ErrKind.unsupported, m⟩) ∧
      mentions m "unknownAction" ∧ mentions m "not supported" :=
  c6_unsupported "unknownAction" [] cfgFull none envTest (by decide)

/-- C7 (counterexample): an enabled account whose botToken is whitespace
only is inside the claim's scope — `resolveClient` throws a
`ConfigurationError` naming it — yet it is NOT filtered out of
`listActions`: with it as the only account, `listActions` still advertises
actions, refuting the claim's final clause. -/
theorem c7_counterexample :
    resolveClient cfgBlankToken none =
      Except.error ⟨ErrKind.configuration,
        "Mattermost bot token missing for account \"default\""⟩
    ∧ listActions cfgBlankToken ≠ []
    ∧ "send" ∈ listActions cfgBlankToken :=
  ⟨by decide, by decide, by decide⟩

/-- C7 (amended): whenever the resolved account's botToken is blank, or its
baseUrl normalizes to the empty string, `resolveClient` throws a
`ConfigurationError` naming the account, and every non-send dispatch whose
client resolution fails rejects without issuing any remote call; accounts
with an empty (rather than merely whitespace) token or base URL are the
ones `listActions` filters out — actions are only ever advertised when
some enabled account has a non-empty token and base URL. -/
theorem c7_amended (cfg : OpenClawConfig) (accId : Option String)
    (account : MMAccount)
    (hres : resolveMattermostAccount cfg accId = Except.ok account) :
    (wsTrim account.botToken = "" →
      ∃ m, resolveClient cfg accId =
          Except.error ⟨ErrKind.configuration, m⟩ ∧
        mentions m account.accountId)
    ∧ (wsTrim account.botToken ≠ "" →
        normalizeMattermostBaseUrl account.baseUrl = "" →
      ∃ m, resolveClient cfg accId =
          Except.error ⟨ErrKind.configuration, m⟩ ∧
        mentions m account.accountId)
    ∧ (∀ (action : String) (params : Params) (acc0 : Option String)
        (env : RemoteEnv) (e : MMError), action ≠ "send" →
        resolveClient cfg (effectiveAccountId acc0 params) =
          Except.error e →
        failsClean (handleMattermostAction action params cfg acc0 env))
    ∧ (∀ cfg2 : OpenClawConfig, listActions cfg2 ≠ [] →
        ∃ a ∈ accountsOf cfg2, validAccount a) := by
  refine ⟨?_, ?_, ?_, ?_⟩
  · intro h
    refine ⟨"Mattermost bot token missing for account \"" ++
      account.accountId ++ "\"", ?_, ?_⟩
    · unfold resolveClient
      rw [hres]
      simp [h]
    · show account.accountId.data <:+: _
      have hd : ("Mattermost bot token missing for account \"" ++
          account.accountId ++ "\"").data =
          "Mattermost bot token missing for account \"".data ++
            (account.accountId.data ++ "\"".data) := by
        simp [String.data_append]
      rw [hd]
      exact ⟨"Mattermost bot token missing for account \"".data,
        "\"".data, by simp⟩
  · intro h hb
    refine ⟨"Mattermost baseUrl missing for account \"" ++
      account.accountId ++ "\"", ?_, ?_⟩
    · unfold resolveClient
      rw [hres]
      simp [h, hb]
    · show account.accountId.data <:+: _
      have hd : ("Mattermost baseUrl missing for account \"" ++
          account.accountId ++ "\"").data =
          "Mattermost baseUrl missing for account \"".data ++
            (account.accountId.data ++ "\"".data) := by
        simp [String.data_append]
      rw [hd]
      exact ⟨"Mattermost baseUrl missing for account \"".data,
        "\"".data, by simp⟩
  · intro action params acc0 env e hns he
    exact nonsend_error_outcome action params cfg acc0 env e hns he
  · intro cfg2 hne
    unfold listActions at hne
    cases hl : (listEnabledMattermostAccounts cfg2).filter
        (fun a => !(a.botToken == "") && !(a.baseUrl == "")) with
    | nil => rw [hl] at hne; simp at hne
    | cons x xs =>
      have hx : x ∈ (listEnabledMattermostAccounts cfg2).filter
          (fun a => !(a.botToken == "") && !(a.baseUrl == "")) :=
        hl ▸ List.mem_cons_self x xs
      have hx1 := (List.mem_filter.mp hx).1
      unfold listEnabledMattermostAccounts at hx1
      obtain ⟨hx2, hx3⟩ := List.mem_filter.mp hx1
      refine ⟨x, hx2, ?_⟩
      simp only [Bool.and_eq_true, Bool.not_eq_true',
        beq_eq_false_iff_ne, ne_eq] at hx3
      exact ⟨hx3.1.1, hx3.1.2, hx3.2⟩

/-- C7 witness: the amended theorem applied to the whitespace-token
account. -/
theorem c7_witness :
    resolveMattermostAccount cfgBlankToken none =
        Except.ok acctBlankToken
    ∧ wsTrim acctBlankToken.botToken = ""
    ∧ ∃ m, resolveClient cfgBlankToken none =
          Except.error ⟨ErrKind.configuration, m⟩ ∧
        mentions m acctBlankToken.accountId :=
  ⟨by decide, by decide,
   (c7_amended cfgBlankToken none acctBlankToken (by decide)).1
     (by decide)⟩

/-- C8: in `read` and `list-pins`, a non-blank `channelId` parameter takes
precedence over `to`; with `channelId` missing or blank the `to` value is
used; with both missing or blank the dispatch rejects with a
`ValidationError` and no remote call; and whatever channel a successful
dispatch reports is exactly the resolved one, carried into the remote
call. -/
theorem c8_channel_precedence (params : Params) (cfg : OpenClawConfig)
    (accountId0 : Option String) (env : RemoteEnv) :
    (∀ cid, lookupParam params "channelId" = some (JValue.str cid) →
      wsTrim cid ≠ "" → resolveChannelId params = Except.ok (wsTrim cid))
    ∧ (noNonBlankString params "channelId" →
       ∀ toV, lookupParam params "to" = some (JValue.str toV) →
         wsTrim toV ≠ "" →
         resolveChannelId params = Except.ok (wsTrim toV))
    ∧ (noNonBlankString params "channelId" → noNonBlankString params "to" →
        handleMattermostAction "read" params cfg accountId0 env =
          ([], Except.error ⟨ErrKind.validation, missingParamMsg "to"⟩)
        ∧ handleMattermostAction "list-pins" params cfg accountId0 env =
          ([], Except.error ⟨ErrKind.validation, missingParamMsg "to"⟩))
    ∧ (∀ tr ch msgs,
        handleMattermostAction "read" params cfg accountId0 env =
          (tr, Except.ok (ActionResult.readRes ch msgs)) →
        resolveChannelId params = Except.ok ch
        ∧ ∃ limit before after,
            tr = [RemoteCall.getChannelPosts ch limit before after])
    ∧ (∀ tr ch pins,
        handleMattermostAction "list-pins" params cfg accountId0 env =
          (tr, Except.ok (ActionResult.listPinsRes ch pins)) →
        resolveChannelId params = Except.ok ch
        ∧ tr = [RemoteCall.getPinnedPosts ch]) := by
  have hrd : handleMattermostAction "read" params cfg accountId0 env =
      handleRead params cfg (effectiveAccountId accountId0 params) env :=
    rfl
  have hlp : handleMattermostAction "list-pins" params cfg accountId0 env =
      handleListPins params cfg (effectiveAccountId accountId0 params)
        env := rfl
  refine ⟨?_, ?_, ?_, ?_, ?_⟩
  · intro cid hc hcb
    unfold resolveChannelId
    rw [readStringParamOpt_of_str params "channelId" cid hc hcb]
  · intro h toV ht htb
    unfold resolveChannelId
    rw [readStringParamOpt_of_missing params "channelId" h,
      readStringParamReq_of_str params "to" toV ht htb]
  · intro h1 h2
    have hrc : resolveChannelId params =
        Except.error ⟨ErrKind.validation, missingParamMsg "to"⟩ := by
      unfold resolveChannelId
      rw [readStringParamOpt_of_missing params "channelId" h1,
        readStringParamReq_of_missing params "to" h2]
    constructor
    · rw [hrd]
      unfold handleRead
      rw [hrc]
      rfl
    · rw [hlp]
      unfold handleListPins
      rw [hrc]
      rfl
  · intro tr ch msgs heq
    obtain ⟨hch, _, limit, htr⟩ :=
      handleRead_ok_inv params cfg accountId0 env tr ch msgs heq
    exact ⟨hch, limit, _, _, htr⟩
  · intro tr ch pins heq
    obtain ⟨hch, _, htr⟩ :=
      handleListPins_ok_inv params cfg accountId0 env tr ch pins heq
    exact ⟨hch, htr⟩

/-- C8 witness: with both `channelId` and `to` present, the channel
resolves to the `channelId` value. -/
theorem c8_witness :
    resolveChannelId
      [("channelId", JValue.str "explicit-ch"),
       ("to", JValue.str "fallback-ch")] = Except.ok "explicit-ch" := by
  have h := (c8_channel_precedence
    [("channelId", JValue.str "explicit-ch"),
     ("to", JValue.str "fallback-ch")]
    cfgFull none envTest).1 "explicit-ch" (by decide) (by decide)
  exact h.trans (by decide)

/-- C9: `extractToolSend` returns the `to` value exactly when the `action`
argument is a string trimming to `sendMessage` and `to` is a non-empty
string; in every other case it returns null. -/
theorem c9_extractToolSend (args : Params) (t : String) :
    extractToolSend args = some t ↔
      ((∃ s, lookupParam args "action" = some (JValue.str s) ∧
          wsTrim s = "sendMessage")
       ∧ lookupParam args "to" = some (JValue.str t) ∧ t ≠ "") := by
  unfold extractToolSend
  cases ha : lookupParam args "action" with
  | none =>
    simp
    intro h
    exact absurd h (by decide)
  | some v =>
    cases v with
    | str s =>
      by_cases hs : wsTrim s = "sendMessage"
      · cases ht : lookupParam args "to" with
        | none => simp [hs]
        | some w =>
          cases w with
          | str u =>
            by_cases hu : u = ""
            · subst hu
              simp [hs]
              intro h
              exact h.symm
            · simp [hs, hu]
              intro h
              subst h
              exact hu
          | num n => simp [hs]
          | bool b => simp [hs]
          | null => simp [hs]
      · simp [hs]
    | num n =>
      simp
      intro h
      exact absurd h (by decide)
    | bool b =>
      simp
      intro h
      exact absurd h (by decide)
    | null =>
      simp
      intro h
      exact absurd h (by decide)

/-- C9 witness: the unit-test's positive case. -/
theorem c9_witness :
    extractToolSend [("action", JValue.str "sendMessage"),
      ("to", JValue.str "ch-123")] = some "ch-123" :=
  (c9_extractToolSend
    [("action", JValue.str "sendMessage"), ("to", JValue.str "ch-123")]
    "ch-123").mpr
    ⟨⟨"sendMessage", by decide, by decide⟩, by decide, by decide⟩

/-- C10: when an id of `order` has no entry in the posts mapping, the
`read` and `list-pins` normalizations still succeed: the output keeps one
entry per id of `order` (lengths agree) and the entry for the missing id
has every field absent rather than being dropped. -/
theorem c10_missing_post (pl : PostList) (i : Nat) (id : String)
    (h1 : pl.order[i]? = some id) (h2 : lookupPost pl.posts id = none) :
    (normalizeMessages pl)[i]? =
      some ⟨none, none, none, none, none, none⟩
    ∧ (normalizePins pl)[i]? = some ⟨none, none, none, none⟩
    ∧ (normalizeMessages pl).length = pl.order.length
    ∧ (normalizePins pl).length = pl.order.length := by
  refine ⟨?_, ?_, by simp [normalizeMessages], by simp [normalizePins]⟩
  · simp [normalizeMessages, List.getElem?_map, h1, h2, normalizeMessage]
  · simp [normalizePins, List.getElem?_map, h1, h2, normalizePin]

/-- C10 witness: the fixture whose `order` names an id absent from the
mapping. -/
theorem c10_witness :
    (normalizeMessages sparsePosts)[1]? =
      some ⟨none, none, none, none, none, none⟩ :=
  (c10_missing_post sparsePosts 1 "missing" (by decide) (by decide)).1
